import Mathlib

/-!
Shallow embedding of `db/builder.cc` (`leveldb::BuildTable`), the immutable
table-builder driver of the storage engine, together with theorems checking
the natural-language specification against it.

Modelling conventions:
* Internal keys are kept in parsed form (`ParsedInternalKey`); the byte
  encoding/decoding (`DecodeFrom`, `ParseInternalKey`) is external to the
  driver and is treated as the identity.
* User keys and values are natural numbers; the pluggable user-key comparator
  is an arbitrary function `Nat → Nat → Int` (zero means "equal"), exactly as
  the driver consumes it (`user_comparator->Compare(...)` tested for nonzero).
* The entry source (`Iterator`) is a finite list of entries plus a deferred
  status queried after exhaustion, matching the interface the driver uses
  (`SeekToFirst`, `Valid`, `key`, `value`, `Next`, `status`).
* Fallible collaborators (`Env::NewWritableFile`, the writes buffered inside
  `TableBuilder`, `Finish`, `Fsync`, `Sync`, `Close`, and the verification
  re-open through the table cache) are driven by an explicit fault-injection
  record `Faults`; `none` everywhere is a fault-free run.
* `assert(...)` statements in the driver are recorded in an `assertViolated`
  flag of the result instead of aborting, so that the invariant-fault
  behaviour is observable.
* Observable effects (which sync variant ran, whether `Close`, `Finish`,
  `Abandon`, `DeleteFile` were called, whether the file remains on disk) are
  recorded as fields of `BuildResult`.
-/

namespace leveldb

/-- `Status`: `none` is `Status::OK()`, `some e` an error with payload `e`. -/
abbrev Status := Option Nat

/-- A parsed internal key: user key, sequence number and value type. -/
structure ParsedInternalKey where
  user_key : Nat
  sequence : Nat
  kind : Nat
deriving DecidableEq, Repr

/-- An entry of the sorted source: internal key paired with its value. -/
abbrev Entry := ParsedInternalKey × Nat

/-- The configuration surface `BuildTable` reads from `Options`. -/
structure Options where
  purge_redundant_kvs_while_flush : Bool
  disableDataSync : Bool
  use_fsync : Bool
deriving DecidableEq, Repr

/-- The entry source: the entries it yields in order, plus the deferred
status reported by `iter->status()` after exhaustion. -/
structure Iter where
  entries : List Entry
  status : Status
deriving DecidableEq, Repr

/-- `FileMetaData`: the table descriptor populated in place by the driver.
`smallest`/`largest` are `none` while unset (the "zero state"). -/
structure FileMetaData where
  number : Nat
  file_size : Nat
  smallest : Option ParsedInternalKey
  largest : Option ParsedInternalKey
deriving DecidableEq, Repr

/-- Fault injection for the external collaborators: `none` means the
corresponding operation succeeds; `some e` makes it fail with error `e`.
`addFailAt = some i` makes the `i`-th `TableBuilder::Add` call fail
internally (the builder records the error in its own status, which
surfaces through `Finish`). -/
structure Faults where
  createErr : Option Nat
  addFailAt : Option Nat
  finishErr : Option Nat
  fsyncErr : Option Nat
  syncErr : Option Nat
  closeErr : Option Nat
  verifyErr : Option Nat
deriving DecidableEq, Repr

/-- The fault-free collaborator configuration. -/
def Faults.clean : Faults :=
  { createErr := none, addFailAt := none, finishErr := none,
    fsyncErr := none, syncErr := none, closeErr := none, verifyErr := none }

/-- State of the external `TableBuilder`: the entries successfully buffered,
how many `Add` calls were made, and the builder's internal status. -/
structure BState where
  entries : List Entry
  addCount : Nat
  status : Status
deriving DecidableEq, Repr

/-- The builder state at construction (`new TableBuilder(...)`). -/
def BState.init : BState := { entries := [], addCount := 0, status := none }

/-- `TableBuilder::Add`: a no-op once the builder's status is bad; otherwise
buffers the entry, unless the injected fault makes this call fail, in which
case the builder records an internal error (surfacing later via `Finish`). -/
def bAdd (f : Faults) (bs : BState) (e : Entry) : BState :=
  if bs.status = none then
    if f.addFailAt = some bs.addCount then
      { bs with status := some 100, addCount := bs.addCount + 1 }
    else
      { bs with entries := bs.entries ++ [e], addCount := bs.addCount + 1 }
  else bs

/-- `TableBuilder::FileSize` after a successful `Finish`: abstracted as the
number of buffered entries plus a positive footer overhead. -/
def fileSize (bs : BState) : Nat := bs.entries.length + 1

/-- The purge-mode main pass of `BuildTable`: the loop
`for (iter->Next(); iter->Valid(); iter->Next())` with pending entry
`(prev_key, prev_value)`.  Arguments: builder state, pending entry,
accumulated assert-violation flag, remaining input.  Returns the builder
state, the final pending entry, and the violation flag.  Each entry is
first checked against `assert(this_ikey.sequence >= earliest)`; a key
differing from the pending key (comparator nonzero) causes the pending
entry to be emitted and replaced; an identical key is discarded after
`assert(this_ikey.sequence < prev_ikey.sequence)`. -/
def purgeLoop (ucmp : Nat → Nat → Int) (earliest : Nat) (f : Faults) :
    BState → Entry → Bool → List Entry → BState × Entry × Bool
  | bs, prev, v, [] => (bs, prev, v)
  | bs, prev, v, e :: rest =>
    let v1 := v || decide (e.1.sequence < earliest)
    if ucmp prev.1.user_key e.1.user_key ≠ 0 then
      purgeLoop ucmp earliest f (bAdd f bs prev) e v1 rest
    else
      purgeLoop ucmp earliest f bs prev
        (v1 || decide (¬ e.1.sequence < prev.1.sequence)) rest

/-- The non-purge main pass: `for (; iter->Valid(); iter->Next())`, writing
every entry verbatim and tracking the running `largest`. -/
def nonPurgeLoop (f : Faults) :
    BState → FileMetaData → List Entry → BState × FileMetaData
  | bs, meta, [] => (bs, meta)
  | bs, meta, e :: rest =>
      nonPurgeLoop f (bAdd f bs e) { meta with largest := some e.1 } rest

/-- Everything `BuildTable` observably produces. -/
structure BuildResult where
  status : Status
  meta : FileMetaData
  fileExists : Bool
  written : List Entry
  finishCalled : Bool
  abandonCalled : Bool
  fsyncCalled : Bool
  syncCalled : Bool
  closeCalled : Bool
  verifyCalled : Bool
  deleteCalled : Bool
  assertViolated : Bool
deriving DecidableEq, Repr

/-- The epilogue of `BuildTable`:
`if (s.ok() && meta->file_size > 0) { keep } else { env->DeleteFile(fname) }`. -/
def epilogue (r : BuildResult) : BuildResult :=
  if r.status = none ∧ 0 < r.meta.file_size then r
  else { r with fileExists := false, deleteCalled := true }

/-- The stages of `BuildTable` after the main pass, for a source that was
non-empty (so a file was created): finish-or-abandon the builder, sync,
close, verify, re-check the iterator status, then the epilogue.  `sIn` is
the driver's status on entry (always OK here, since a creation failure
returned early and the pass itself never sets it). -/
def tailStages (options : Options) (f : Faults) (iter : Iter) (sIn : Status)
    (bs : BState) (meta : FileMetaData) (violated : Bool) : BuildResult :=
  -- Finish and check for builder errors; `Finish` surfaces the builder's own
  -- recorded status.  The `assert(meta->file_size > 0)` executed on a
  -- successful finish is folded into the violation flag.
  let fs : Status := if bs.status ≠ none then bs.status else f.finishErr
  let r1 :=
    if sIn = none then
      if fs = none then
        (fs, { meta with file_size := fileSize bs }, true, false)
      else (fs, meta, true, false)
    else (sIn, meta, false, true)
  let violated :=
    if sIn = none ∧ fs = none then violated || decide (¬ 0 < fileSize bs)
    else violated
  let s := r1.1
  let meta := r1.2.1
  let finishCalled := r1.2.2.1
  let abandonCalled := r1.2.2.2
  -- Finish and check for file errors
  let r2 :=
    if s = none ∧ options.disableDataSync = false then
      if options.use_fsync then (f.fsyncErr, true, false)
      else (f.syncErr, false, true)
    else (s, false, false)
  let s := r2.1
  let fsyncCalled := r2.2.1
  let syncCalled := r2.2.2
  let r3 := if s = none then (f.closeErr, true) else (s, false)
  let s := r3.1
  let closeCalled := r3.2
  -- Verify that the table is usable
  let r4 := if s = none then (f.verifyErr, true) else (s, false)
  let s := r4.1
  let verifyCalled := r4.2
  -- Check for input iterator errors
  let s := if iter.status ≠ none then iter.status else s
  epilogue
    { status := s, meta := meta, fileExists := true, written := bs.entries,
      finishCalled := finishCalled, abandonCalled := abandonCalled,
      fsyncCalled := fsyncCalled, syncCalled := syncCalled,
      closeCalled := closeCalled, verifyCalled := verifyCalled,
      deleteCalled := false, assertViolated := violated }

/-- Shallow embedding of `leveldb::BuildTable` (db/builder.cc). -/
def BuildTable (ucmp : Nat → Nat → Int) (options : Options) (f : Faults)
    (iter : Iter) (metaIn : FileMetaData)
    (newest_snapshot earliest_seqno_in_memtable : Nat) : BuildResult :=
  let s : Status := none
  let meta := { metaIn with file_size := 0 }
  -- purge is requested by configuration but suppressed when the earliest
  -- sequence number in the memtable is not above the newest snapshot
  let purge0 := options.purge_redundant_kvs_while_flush
  let purge := if earliest_seqno_in_memtable ≤ newest_snapshot then false else purge0
  match iter.entries with
  | [] =>
    -- iterator is not Valid(): skip the build block entirely
    let s := if iter.status ≠ none then iter.status else s
    epilogue
      { status := s, meta := meta, fileExists := false, written := [],
        finishCalled := false, abandonCalled := false, fsyncCalled := false,
        syncCalled := false, closeCalled := false, verifyCalled := false,
        deleteCalled := false, assertViolated := false }
  | first :: rest =>
    match f.createErr with
    | some e =>
      -- `if (!s.ok()) { return s; }`: early return, no epilogue
      { status := some e, meta := meta, fileExists := false, written := [],
        finishCalled := false, abandonCalled := false, fsyncCalled := false,
        syncCalled := false, closeCalled := false, verifyCalled := false,
        deleteCalled := false, assertViolated := false }
    | none =>
      -- the first key is the smallest key
      let meta := { meta with smallest := some first.1 }
      if purge then
        let v0 := decide (first.1.sequence < earliest_seqno_in_memtable)
        let r := purgeLoop ucmp earliest_seqno_in_memtable f BState.init first v0 rest
        let bs := bAdd f r.1 r.2.1
        tailStages options f iter s bs { meta with largest := some r.2.1.1 } r.2.2
      else
        let r := nonPurgeLoop f BState.init meta (first :: rest)
        tailStages options f iter s r.1 r.2 false

/-- A standard total comparator on user keys, used for concrete witnesses. -/
def natCmp (a b : Nat) : Int := (a : Int) - (b : Int)

/-- Comparator equality of two entries' user keys, as the driver tests it. -/
def sameUserKey (ucmp : Nat → Nat → Int) (a b : Entry) : Bool :=
  decide (ucmp a.1.user_key b.1.user_key = 0)

/-- Length of `dropWhile` never exceeds the length of the list. -/
theorem dropWhile_length_le (p : α → Bool) (l : List α) :
    (l.dropWhile p).length ≤ l.length := by
  induction l with
  | nil => simp
  | cons x xs ih =>
      by_cases h : p x
      · simp only [List.dropWhile, h]
        exact Nat.le_trans ih (Nat.le_succ _)
      · simp only [List.dropWhile, Bool.not_eq_true] at *
        simp [h]

/-- Specification-side grouping of the source into its maximal runs of
entries whose user key compares equal (under `ucmp`) to the run's head:
each run is returned as its head paired with the tail of the run. -/
def runsByHead (ucmp : Nat → Nat → Int) : List Entry → List (Entry × List Entry)
  | [] => []
  | a :: l =>
    (a, l.takeWhile (sameUserKey ucmp a)) ::
      runsByHead ucmp (l.dropWhile (sameUserKey ucmp a))
termination_by l => l.length
decreasing_by
  exact Nat.lt_succ_of_le (dropWhile_length_le _ _)

/-! ### Helper lemmas about the loops and the builder model -/

@[simp]
theorem runsByHead_nil (ucmp : Nat → Nat → Int) : runsByHead ucmp [] = [] := by
  rw [runsByHead]

theorem runsByHead_cons (ucmp : Nat → Nat → Int) (a : Entry) (l : List Entry) :
    runsByHead ucmp (a :: l) =
      (a, l.takeWhile (sameUserKey ucmp a)) ::
        runsByHead ucmp (l.dropWhile (sameUserKey ucmp a)) := by
  rw [runsByHead]

theorem bAdd_clean {f : Faults} (hf : f.addFailAt = none) {bs : BState}
    (h : bs.status = none) (e : Entry) :
    bAdd f bs e =
      { bs with entries := bs.entries ++ [e], addCount := bs.addCount + 1 } := by
  simp [bAdd, h, hf]

theorem bAdd_failed {f : Faults} {bs : BState} (h : bs.status ≠ none) (e : Entry) :
    bAdd f bs e = bs := by
  simp [bAdd, h]


theorem nonPurgeLoop_nil (f : Faults) (bs : BState) (meta : FileMetaData) :
    nonPurgeLoop f bs meta [] = (bs, meta) := rfl

theorem nonPurgeLoop_cons (f : Faults) (bs : BState) (meta : FileMetaData)
    (e : Entry) (rest : List Entry) :
    nonPurgeLoop f bs meta (e :: rest) =
      nonPurgeLoop f (bAdd f bs e) { meta with largest := some e.1 } rest := rfl

theorem purgeLoop_nil (ucmp : Nat → Nat → Int) (earliest : Nat) (f : Faults)
    (bs : BState) (prev : Entry) (v : Bool) :
    purgeLoop ucmp earliest f bs prev v [] = (bs, prev, v) := rfl

theorem purgeLoop_cons (ucmp : Nat → Nat → Int) (earliest : Nat) (f : Faults)
    (bs : BState) (prev : Entry) (v : Bool) (e : Entry) (rest : List Entry) :
    purgeLoop ucmp earliest f bs prev v (e :: rest) =
      if ucmp prev.1.user_key e.1.user_key ≠ 0 then
        purgeLoop ucmp earliest f (bAdd f bs prev) e
          (v || decide (e.1.sequence < earliest)) rest
      else
        purgeLoop ucmp earliest f bs prev
          (v || decide (e.1.sequence < earliest) ||
            decide (¬ e.1.sequence < prev.1.sequence)) rest := rfl

theorem nonPurgeLoop_clean {f : Faults} (hf : f.addFailAt = none) :
    ∀ (l : List Entry) (bs : BState) (meta : FileMetaData), bs.status = none →
      nonPurgeLoop f bs meta l =
        ({ bs with entries := bs.entries ++ l, addCount := bs.addCount + l.length },
         { meta with largest := l.getLast?.elim meta.largest (fun e => some e.1) }) := by
  intro l
  induction l with
  | nil => intro bs meta h; simp [nonPurgeLoop_nil]
  | cons e rest ih =>
      intro bs meta h
      rw [nonPurgeLoop_cons, bAdd_clean hf h, ih _ _ (by simpa using h)]
      rw [Prod.mk.injEq]
      refine ⟨?_, ?_⟩
      · rw [BState.mk.injEq]
        refine ⟨by simp, ?_, rfl⟩
        simp only [List.length_cons]
        omega
      · rw [FileMetaData.mk.injEq]
        refine ⟨rfl, rfl, rfl, ?_⟩
        cases rest with
        | nil => simp
        | cons x xs =>
            cases hxl : (x :: xs).getLast? with
            | none => simp at hxl
            | some y => simp [List.getLast?_cons_cons, hxl]

theorem nonPurgeLoop_stuck {f : Faults} :
    ∀ (l : List Entry) (bs : BState) (meta : FileMetaData), bs.status ≠ none →
      (nonPurgeLoop f bs meta l).1 = bs := by
  intro l
  induction l with
  | nil => intro bs meta h; simp [nonPurgeLoop_nil]
  | cons e rest ih =>
      intro bs meta h
      rw [nonPurgeLoop_cons, bAdd_failed h]
      exact ih _ _ h

theorem purgeLoop_clean {ucmp : Nat → Nat → Int} {earliest : Nat} {f : Faults}
    (hf : f.addFailAt = none) :
    ∀ (l : List Entry) (bs : BState) (prev : Entry) (v : Bool), bs.status = none →
      (purgeLoop ucmp earliest f bs prev v l).1.status = none ∧
      (purgeLoop ucmp earliest f bs prev v l).1.entries ++
          [(purgeLoop ucmp earliest f bs prev v l).2.1] =
        bs.entries ++ (runsByHead ucmp (prev :: l)).map Prod.fst := by
  intro l
  induction l with
  | nil =>
      intro bs prev v h
      simp [purgeLoop_nil, runsByHead_cons, h]
  | cons e rest ih =>
      intro bs prev v h
      rw [purgeLoop_cons]
      by_cases hk : ucmp prev.1.user_key e.1.user_key ≠ 0
      · rw [if_pos hk]
        have h' : (bAdd f bs prev).status = none := by
          rw [bAdd_clean hf h]; exact h
        obtain ⟨h1, h2⟩ := ih (bAdd f bs prev) e _ h'
        refine ⟨h1, ?_⟩
        rw [h2, bAdd_clean hf h]
        have hsk : sameUserKey ucmp prev e = false := by
          simp [sameUserKey]
          exact fun hc => absurd hc hk
        simp [runsByHead_cons, hsk, List.takeWhile_cons, List.dropWhile_cons,
          List.append_assoc]
      · rw [if_neg hk]
        obtain ⟨h1, h2⟩ := ih bs prev _ h
        refine ⟨h1, ?_⟩
        rw [h2]
        have hsk : sameUserKey ucmp prev e = true := by
          simp only [ne_eq, not_not] at hk
          simp [sameUserKey, hk]
        simp [runsByHead_cons, hsk, List.takeWhile_cons, List.dropWhile_cons]

theorem purgeLoop_stuck {ucmp : Nat → Nat → Int} {earliest : Nat} {f : Faults} :
    ∀ (l : List Entry) (bs : BState) (prev : Entry) (v : Bool), bs.status ≠ none →
      (purgeLoop ucmp earliest f bs prev v l).1 = bs ∧
      (purgeLoop ucmp earliest f bs prev v l).2.1 ∈ prev :: l := by
  intro l
  induction l with
  | nil => intro bs prev v h; simp [purgeLoop_nil]
  | cons e rest ih =>
      intro bs prev v h
      rw [purgeLoop_cons]
      by_cases hk : ucmp prev.1.user_key e.1.user_key ≠ 0
      · rw [if_pos hk, bAdd_failed h]
        obtain ⟨h1, h2⟩ := ih bs e (v || decide (e.1.sequence < earliest)) h
        exact ⟨h1, List.mem_cons_of_mem _ h2⟩
      · rw [if_neg hk]
        obtain ⟨h1, h2⟩ := ih bs prev
          (v || decide (e.1.sequence < earliest) ||
            decide (¬ e.1.sequence < prev.1.sequence)) h
        refine ⟨h1, ?_⟩
        rcases List.mem_cons.mp h2 with h3 | h3
        · rw [h3]; exact List.mem_cons_self _ _
        · exact List.mem_cons_of_mem _ (List.mem_cons_of_mem _ h3)

theorem purgeLoop_violated {ucmp : Nat → Nat → Int} {earliest : Nat} {f : Faults} :
    ∀ (l : List Entry) (bs : BState) (prev : Entry) (v : Bool),
      purgeLoop ucmp earliest f bs prev v l =
        ((purgeLoop ucmp earliest f bs prev false l).1,
         (purgeLoop ucmp earliest f bs prev false l).2.1,
         v || (purgeLoop ucmp earliest f bs prev false l).2.2) := by
  intro l
  induction l with
  | nil => intro bs prev v; simp [purgeLoop_nil]
  | cons e rest ih =>
      intro bs prev v
      rw [purgeLoop_cons, purgeLoop_cons]
      by_cases hk : ucmp prev.1.user_key e.1.user_key ≠ 0
      · rw [if_pos hk, if_pos hk,
            ih (bAdd f bs prev) e (v || decide (e.1.sequence < earliest)),
            ih (bAdd f bs prev) e (false || decide (e.1.sequence < earliest))]
        simp [Bool.or_assoc]
      · rw [if_neg hk, if_neg hk,
            ih bs prev (v || decide (e.1.sequence < earliest) ||
              decide (¬ e.1.sequence < prev.1.sequence)),
            ih bs prev (false || decide (e.1.sequence < earliest) ||
              decide (¬ e.1.sequence < prev.1.sequence))]
        simp [Bool.or_assoc]

theorem BuildTable_empty {ucmp : Nat → Nat → Int} {o : Options} {f : Faults}
    {iter : Iter} {metaIn : FileMetaData} {ns es : Nat}
    (h : iter.entries = []) :
    BuildTable ucmp o f iter metaIn ns es =
      epilogue
        { status := iter.status, meta := { metaIn with file_size := 0 },
          fileExists := false, written := [], finishCalled := false,
          abandonCalled := false, fsyncCalled := false, syncCalled := false,
          closeCalled := false, verifyCalled := false, deleteCalled := false,
          assertViolated := false } := by
  cases hs : iter.status with
  | none => simp [BuildTable, h, hs]
  | some e => simp [BuildTable, h, hs]

theorem BuildTable_createFail {ucmp : Nat → Nat → Int} {o : Options} {f : Faults}
    {iter : Iter} {metaIn : FileMetaData} {ns es : Nat} {first : Entry}
    {rest : List Entry} {e : Nat}
    (h : iter.entries = first :: rest) (hc : f.createErr = some e) :
    BuildTable ucmp o f iter metaIn ns es =
      { status := some e, meta := { metaIn with file_size := 0 },
        fileExists := false, written := [], finishCalled := false,
        abandonCalled := false, fsyncCalled := false, syncCalled := false,
        closeCalled := false, verifyCalled := false, deleteCalled := false,
        assertViolated := false } := by
  simp [BuildTable, h, hc]

theorem BuildTable_cons_purge {ucmp : Nat → Nat → Int} {o : Options} {f : Faults}
    {iter : Iter} {metaIn : FileMetaData} {ns es : Nat} {first : Entry}
    {rest : List Entry}
    (h : iter.entries = first :: rest) (hc : f.createErr = none)
    (hp : o.purge_redundant_kvs_while_flush = true) (hw : ¬ es ≤ ns) :
    BuildTable ucmp o f iter metaIn ns es =
      tailStages o f iter none
        (bAdd f
          (purgeLoop ucmp es f BState.init first
            (decide (first.1.sequence < es)) rest).1
          (purgeLoop ucmp es f BState.init first
            (decide (first.1.sequence < es)) rest).2.1)
        { metaIn with
            file_size := 0, smallest := some first.1,
            largest := some (purgeLoop ucmp es f BState.init first
              (decide (first.1.sequence < es)) rest).2.1.1 }
        (purgeLoop ucmp es f BState.init first
          (decide (first.1.sequence < es)) rest).2.2 := by
  simp [BuildTable, h, hc, hp, hw]

theorem BuildTable_cons_nonpurge {ucmp : Nat → Nat → Int} {o : Options} {f : Faults}
    {iter : Iter} {metaIn : FileMetaData} {ns es : Nat} {first : Entry}
    {rest : List Entry}
    (h : iter.entries = first :: rest) (hc : f.createErr = none)
    (hpu : es ≤ ns ∨ o.purge_redundant_kvs_while_flush = false) :
    BuildTable ucmp o f iter metaIn ns es =
      tailStages o f iter none
        (nonPurgeLoop f BState.init
          { metaIn with file_size := 0, smallest := some first.1 }
          (first :: rest)).1
        (nonPurgeLoop f BState.init
          { metaIn with file_size := 0, smallest := some first.1 }
          (first :: rest)).2
        false := by
  rcases hpu with hw | hp
  · simp [BuildTable, h, hc, hw]
  · by_cases hw : es ≤ ns
    · simp [BuildTable, h, hc, hw]
    · simp [BuildTable, h, hc, hw, hp]

theorem epilogue_status (r : BuildResult) : (epilogue r).status = r.status := by
  simp only [epilogue]; split <;> rfl

theorem epilogue_meta (r : BuildResult) : (epilogue r).meta = r.meta := by
  simp only [epilogue]; split <;> rfl

theorem epilogue_written (r : BuildResult) : (epilogue r).written = r.written := by
  simp only [epilogue]; split <;> rfl

theorem epilogue_assertViolated (r : BuildResult) :
    (epilogue r).assertViolated = r.assertViolated := by
  simp only [epilogue]; split <;> rfl

theorem epilogue_finishCalled (r : BuildResult) :
    (epilogue r).finishCalled = r.finishCalled := by
  simp only [epilogue]; split <;> rfl

theorem epilogue_abandonCalled (r : BuildResult) :
    (epilogue r).abandonCalled = r.abandonCalled := by
  simp only [epilogue]; split <;> rfl

theorem epilogue_fsyncCalled (r : BuildResult) :
    (epilogue r).fsyncCalled = r.fsyncCalled := by
  simp only [epilogue]; split <;> rfl

theorem epilogue_syncCalled (r : BuildResult) :
    (epilogue r).syncCalled = r.syncCalled := by
  simp only [epilogue]; split <;> rfl

theorem epilogue_closeCalled (r : BuildResult) :
    (epilogue r).closeCalled = r.closeCalled := by
  simp only [epilogue]; split <;> rfl

theorem epilogue_fileExists (r : BuildResult) :
    (epilogue r).fileExists =
      if r.status = none ∧ 0 < r.meta.file_size then r.fileExists else false := by
  simp only [epilogue]; split <;> simp_all

theorem epilogue_deleteCalled (r : BuildResult) :
    (epilogue r).deleteCalled =
      if r.status = none ∧ 0 < r.meta.file_size then r.deleteCalled else true := by
  simp only [epilogue]; split <;> simp_all

theorem tailStages_written (o : Options) (f : Faults) (iter : Iter) (sIn : Status)
    (bs : BState) (meta : FileMetaData) (violated : Bool) :
    (tailStages o f iter sIn bs meta violated).written = bs.entries := by
  simp only [tailStages, epilogue_written]

theorem tailStages_smallest (o : Options) (f : Faults) (iter : Iter) (sIn : Status)
    (bs : BState) (meta : FileMetaData) (violated : Bool) :
    (tailStages o f iter sIn bs meta violated).meta.smallest = meta.smallest := by
  simp only [tailStages, epilogue_meta]
  split_ifs <;> rfl

theorem tailStages_largest (o : Options) (f : Faults) (iter : Iter) (sIn : Status)
    (bs : BState) (meta : FileMetaData) (violated : Bool) :
    (tailStages o f iter sIn bs meta violated).meta.largest = meta.largest := by
  simp only [tailStages, epilogue_meta]
  split_ifs <;> rfl

theorem tailStages_meta (o : Options) (f : Faults) (iter : Iter)
    (bs : BState) (meta : FileMetaData) (violated : Bool) :
    (tailStages o f iter none bs meta violated).meta =
      if bs.status = none ∧ f.finishErr = none then
        { meta with file_size := fileSize bs }
      else meta := by
  simp only [tailStages, epilogue_meta]
  cases hbs : bs.status with
  | none => cases hfin : f.finishErr <;> simp [hbs, hfin]
  | some c => simp [hbs]

/-- The driver's status after the tail stages, with a clean finish: the
chosen sync's fault, else the close fault, else the verify fault, else the
iterator's deferred status. -/
theorem tailStages_clean_status (o : Options) (f : Faults) (iter : Iter)
    (bs : BState) (meta : FileMetaData) (violated : Bool)
    (hbs : bs.status = none) (hfin : f.finishErr = none)
    (hfs : f.fsyncErr = none) (hsy : f.syncErr = none)
    (hcl : f.closeErr = none) (hv : f.verifyErr = none)
    (hit : iter.status = none) :
    (tailStages o f iter none bs meta violated).status = none := by
  simp only [tailStages, epilogue_status]
  by_cases hd : o.disableDataSync = false <;>
    by_cases hu : o.use_fsync = true <;>
      simp [hbs, hfin, hfs, hsy, hcl, hv, hit, hd, hu]

/-! ### Claim theorems -/

/-- **C6.** For every source that yields no entries and whose deferred error
status is clean, `BuildTable` returns success, no output file is created or
left on disk, and the descriptor's `file_size` remains 0. -/
theorem C6_empty_source_success {ucmp : Nat → Nat → Int} {o : Options}
    {f : Faults} {iter : Iter} {metaIn : FileMetaData} {ns es : Nat}
    (h : iter.entries = []) (hs : iter.status = none) :
    (BuildTable ucmp o f iter metaIn ns es).status = none ∧
    (BuildTable ucmp o f iter metaIn ns es).fileExists = false ∧
    (BuildTable ucmp o f iter metaIn ns es).meta.file_size = 0 := by
  rw [BuildTable_empty h]
  simp [epilogue, hs]

/-- Witness for C6 at a concrete empty source. -/
theorem C6_empty_source_success_witness :
    (BuildTable natCmp
      { purge_redundant_kvs_while_flush := true, disableDataSync := false,
        use_fsync := false }
      Faults.clean { entries := [], status := none }
      { number := 7, file_size := 99, smallest := none, largest := none }
      2 3).status = none ∧
    (BuildTable natCmp
      { purge_redundant_kvs_while_flush := true, disableDataSync := false,
        use_fsync := false }
      Faults.clean { entries := [], status := none }
      { number := 7, file_size := 99, smallest := none, largest := none }
      2 3).fileExists = false ∧
    (BuildTable natCmp
      { purge_redundant_kvs_while_flush := true, disableDataSync := false,
        use_fsync := false }
      Faults.clean { entries := [], status := none }
      { number := 7, file_size := 99, smallest := none, largest := none }
      2 3).meta.file_size = 0 :=
  C6_empty_source_success rfl rfl

/-- **C8.** Provided the stages run at all (the output file could be
created), the entry source's deferred error status is re-checked after all
build, durability and verification stages; if it is set, the call's result
is that error, even when every prior stage succeeded, and for empty and
non-empty sources alike. -/
theorem C8_deferred_source_error_overrides {ucmp : Nat → Nat → Int}
    {o : Options} {f : Faults} {iter : Iter} {metaIn : FileMetaData}
    {ns es : Nat} {e : Nat}
    (hc : f.createErr = none) (hs : iter.status = some e) :
    (BuildTable ucmp o f iter metaIn ns es).status = some e := by
  cases h : iter.entries with
  | nil => rw [BuildTable_empty h]; simp [epilogue, hs]
  | cons first rest =>
      have hgoal : ∀ bs meta violated,
          (tailStages o f iter none bs meta violated).status = some e := by
        intro bs meta violated
        simp only [tailStages]
        cases hbs : bs.status with
        | none => cases hfin : f.finishErr <;> simp [epilogue, hs, hbs, hfin]
        | some c => simp [epilogue, hs, hbs]
      by_cases hp : (es ≤ ns) ∨ o.purge_redundant_kvs_while_flush = false
      · rw [BuildTable_cons_nonpurge h hc hp]
        exact hgoal _ _ _
      · push_neg at hp
        obtain ⟨hw, hpu⟩ := hp
        rw [BuildTable_cons_purge h hc (by simpa using hpu) (by omega)]
        exact hgoal _ _ _

/-- Witness for C8: a clean non-empty build whose source reports a deferred
error 9 after exhaustion; the call returns exactly that error. -/
theorem C8_deferred_source_error_overrides_witness :
    (BuildTable natCmp
      { purge_redundant_kvs_while_flush := false, disableDataSync := false,
        use_fsync := false }
      Faults.clean
      { entries := [(⟨1, 5, 0⟩, 11)], status := some 9 }
      { number := 7, file_size := 0, smallest := none, largest := none }
      2 3).status = some 9 :=
  C8_deferred_source_error_overrides rfl rfl

/-- **C2.** For every source and configuration where
`earliest_seqno_in_source ≤ snapshot_watermark`, obsolete-version
elimination is not applied even when the purge configuration flag is set:
the written output equals the input sequence exactly (for a run in which
file creation and the buffered writes themselves do not fault).  The
eligibility decision depends only on the two sequence numbers, not on any
entry, mirroring its evaluation before the source is consumed. -/
theorem C2_purge_suppressed_at_watermark {ucmp : Nat → Nat → Int}
    {o : Options} {f : Faults} {iter : Iter} {metaIn : FileMetaData}
    {ns es : Nat}
    (hw : es ≤ ns) (hc : f.createErr = none) (ha : f.addFailAt = none) :
    (BuildTable ucmp o f iter metaIn ns es).written = iter.entries := by
  cases h : iter.entries with
  | nil => rw [BuildTable_empty h]; simp [epilogue_written, h]
  | cons first rest =>
      rw [BuildTable_cons_nonpurge h hc (Or.inl hw), tailStages_written,
        nonPurgeLoop_clean ha (first :: rest) BState.init _ rfl]
      simp [BState.init]

/-- Witness for C2 (spec's Example 2): watermark 4, earliest 3, purge flag
set; all three entries survive unmodified. -/
theorem C2_purge_suppressed_at_watermark_witness :
    (BuildTable natCmp
      { purge_redundant_kvs_while_flush := true, disableDataSync := false,
        use_fsync := false }
      Faults.clean
      { entries := [(⟨1, 5, 0⟩, 11), (⟨1, 3, 0⟩, 10), (⟨2, 4, 0⟩, 12)],
        status := none }
      { number := 7, file_size := 0, smallest := none, largest := none }
      4 3).written =
      [(⟨1, 5, 0⟩, 11), (⟨1, 3, 0⟩, 10), (⟨2, 4, 0⟩, 12)] :=
  C2_purge_suppressed_at_watermark (by decide) rfl rfl

/-- **C3.** For every non-empty sorted source with purge disabled by
configuration (and no creation/write fault), every input entry is written
verbatim in input order — the output equals the input exactly — and the
descriptor's `smallest` is the first input entry's key and `largest` the
last input entry's key. -/
theorem C3_no_purge_copies_input {ucmp : Nat → Nat → Int}
    {o : Options} {f : Faults} {iter : Iter} {metaIn : FileMetaData}
    {ns es : Nat} {first : Entry} {rest : List Entry}
    (h : iter.entries = first :: rest)
    (hp : o.purge_redundant_kvs_while_flush = false)
    (hc : f.createErr = none) (ha : f.addFailAt = none) :
    (BuildTable ucmp o f iter metaIn ns es).written = iter.entries ∧
    (BuildTable ucmp o f iter metaIn ns es).meta.smallest =
      iter.entries.head?.map (fun e => e.1) ∧
    (BuildTable ucmp o f iter metaIn ns es).meta.largest =
      iter.entries.getLast?.map (fun e => e.1) := by
  rw [BuildTable_cons_nonpurge h hc (Or.inr hp), tailStages_written,
    tailStages_smallest, tailStages_largest,
    nonPurgeLoop_clean ha (first :: rest) BState.init _ rfl]
  refine ⟨by simp [BState.init, h], by simp [h], ?_⟩
  cases hxl : (first :: rest).getLast? with
  | none => simp at hxl
  | some y => simp [h, hxl]

/-- Witness for C3 at a concrete two-entry source with purge disabled. -/
theorem C3_no_purge_copies_input_witness :
    (BuildTable natCmp
      { purge_redundant_kvs_while_flush := false, disableDataSync := false,
        use_fsync := false }
      Faults.clean
      { entries := [(⟨1, 5, 0⟩, 11), (⟨2, 4, 0⟩, 12)], status := none }
      { number := 7, file_size := 0, smallest := none, largest := none }
      2 3).written = [(⟨1, 5, 0⟩, 11), (⟨2, 4, 0⟩, 12)] ∧
    (BuildTable natCmp
      { purge_redundant_kvs_while_flush := false, disableDataSync := false,
        use_fsync := false }
      Faults.clean
      { entries := [(⟨1, 5, 0⟩, 11), (⟨2, 4, 0⟩, 12)], status := none }
      { number := 7, file_size := 0, smallest := none, largest := none }
      2 3).meta.smallest = some ⟨1, 5, 0⟩ ∧
    (BuildTable natCmp
      { purge_redundant_kvs_while_flush := false, disableDataSync := false,
        use_fsync := false }
      Faults.clean
      { entries := [(⟨1, 5, 0⟩, 11), (⟨2, 4, 0⟩, 12)], status := none }
      { number := 7, file_size := 0, smallest := none, largest := none }
      2 3).meta.largest = some ⟨2, 4, 0⟩ :=
  C3_no_purge_copies_input rfl rfl rfl rfl

/-- In a source that is pairwise ordered with strictly descending sequence
numbers on comparator-equal user keys, every entry in the tail of a maximal
run has a strictly smaller sequence number than the run's head. -/
theorem runsByHead_tail_lt (ucmp : Nat → Nat → Int) :
    ∀ (n : Nat) (l : List Entry), l.length ≤ n →
      l.Pairwise (fun a b => sameUserKey ucmp a b = true →
        b.1.sequence < a.1.sequence) →
      ∀ p ∈ runsByHead ucmp l, ∀ e ∈ p.2, e.1.sequence < p.1.1.sequence := by
  intro n
  induction n with
  | zero =>
      intro l hlen _ p hp
      rw [List.length_eq_zero.mp (Nat.le_zero.mp hlen)] at hp
      simp at hp
  | succ n ihn =>
      intro l hlen hpw p hp e he
      cases l with
      | nil => simp at hp
      | cons a l' =>
          rw [runsByHead_cons] at hp
          rcases List.mem_cons.mp hp with h1 | h1
          · subst h1
            have hsame : sameUserKey ucmp a e = true := List.mem_takeWhile_imp he
            have hmem : e ∈ l' := (List.takeWhile_sublist _).mem he
            exact (List.pairwise_cons.mp hpw).1 e hmem hsame
          · refine ihn (l'.dropWhile (sameUserKey ucmp a)) ?_ ?_ p h1 e he
            · exact Nat.le_trans (dropWhile_length_le _ _)
                (Nat.le_of_succ_le_succ hlen)
            · exact ((List.pairwise_cons.mp hpw).2).sublist
                (List.dropWhile_sublist _)

/-- **C1.** For every non-empty sorted source whose entries all carry
sequence numbers above the snapshot watermark (so that
`earliest_seqno_in_source > snapshot_watermark`), with purge enabled by
configuration and no creation/write fault: the build writes, for each
maximal run of consecutive entries sharing a user key, exactly one entry —
the run's head, which under the descending-sequence ordering carries the
maximum sequence number of the run — discarding all others; `smallest` is
the first written key and `largest` is the last written key. -/
theorem C1_purge_keeps_newest_per_run {ucmp : Nat → Nat → Int}
    {o : Options} {f : Faults} {iter : Iter} {metaIn : FileMetaData}
    {ns es : Nat} {first : Entry} {rest : List Entry}
    (h : iter.entries = first :: rest)
    (hp : o.purge_redundant_kvs_while_flush = true)
    (hw : ¬ es ≤ ns)
    (_hall : ∀ e ∈ iter.entries, ns < e.1.sequence)
    (hc : f.createErr = none) (ha : f.addFailAt = none)
    (hsorted : iter.entries.Pairwise
      (fun a b => sameUserKey ucmp a b = true → b.1.sequence < a.1.sequence)) :
    (BuildTable ucmp o f iter metaIn ns es).written =
      (runsByHead ucmp iter.entries).map Prod.fst ∧
    (∀ p ∈ runsByHead ucmp iter.entries, ∀ e ∈ p.2,
      e.1.sequence < p.1.1.sequence) ∧
    (BuildTable ucmp o f iter metaIn ns es).meta.smallest =
      ((BuildTable ucmp o f iter metaIn ns es).written.head?).map
        (fun e => e.1) ∧
    (BuildTable ucmp o f iter metaIn ns es).meta.largest =
      ((BuildTable ucmp o f iter metaIn ns es).written.getLast?).map
        (fun e => e.1) := by
  obtain ⟨hst, hent⟩ := @purgeLoop_clean ucmp es f ha rest
    BState.init first (decide (first.1.sequence < es)) rfl
  have hwr : (BuildTable ucmp o f iter metaIn ns es).written =
      (runsByHead ucmp (first :: rest)).map Prod.fst := by
    rw [BuildTable_cons_purge h hc hp hw, tailStages_written, bAdd_clean ha hst,
      hent]
    simp [BState.init]
  have hrun : ∀ p ∈ runsByHead ucmp iter.entries, ∀ e ∈ p.2,
      e.1.sequence < p.1.1.sequence :=
    runsByHead_tail_lt ucmp iter.entries.length iter.entries (Nat.le_refl _)
      hsorted
  refine ⟨by rw [hwr, h], hrun, ?_, ?_⟩
  · rw [hwr, BuildTable_cons_purge h hc hp hw, tailStages_smallest,
      runsByHead_cons]
    simp
  · have hent' : (purgeLoop ucmp es f BState.init first
        (decide (first.1.sequence < es)) rest).1.entries ++
          [(purgeLoop ucmp es f BState.init first
            (decide (first.1.sequence < es)) rest).2.1] =
        (runsByHead ucmp (first :: rest)).map Prod.fst := by
      simpa [BState.init] using hent
    rw [hwr, BuildTable_cons_purge h hc hp hw, tailStages_largest, ← hent']
    simp

/-- Witness for C1 (spec's Example 1): user keys 1,1,2 with sequence
numbers 5,3,4, watermark 2, earliest 3: the newest version of each user
key survives; smallest is the first and largest the last written key. -/
theorem C1_purge_keeps_newest_per_run_witness :
    (BuildTable natCmp
      { purge_redundant_kvs_while_flush := true, disableDataSync := false,
        use_fsync := false }
      Faults.clean
      { entries := [(⟨1, 5, 0⟩, 11), (⟨1, 3, 0⟩, 10), (⟨2, 4, 0⟩, 12)],
        status := none }
      { number := 7, file_size := 0, smallest := none, largest := none }
      2 3).written =
      (runsByHead natCmp
        [(⟨1, 5, 0⟩, 11), (⟨1, 3, 0⟩, 10), (⟨2, 4, 0⟩, 12)]).map Prod.fst ∧
    (∀ p ∈ runsByHead natCmp
        [(⟨1, 5, 0⟩, 11), (⟨1, 3, 0⟩, 10), (⟨2, 4, 0⟩, 12)], ∀ e ∈ p.2,
      e.1.sequence < p.1.1.sequence) ∧
    (BuildTable natCmp
      { purge_redundant_kvs_while_flush := true, disableDataSync := false,
        use_fsync := false }
      Faults.clean
      { entries := [(⟨1, 5, 0⟩, 11), (⟨1, 3, 0⟩, 10), (⟨2, 4, 0⟩, 12)],
        status := none }
      { number := 7, file_size := 0, smallest := none, largest := none }
      2 3).meta.smallest =
      ((BuildTable natCmp
        { purge_redundant_kvs_while_flush := true, disableDataSync := false,
          use_fsync := false }
        Faults.clean
        { entries := [(⟨1, 5, 0⟩, 11), (⟨1, 3, 0⟩, 10), (⟨2, 4, 0⟩, 12)],
          status := none }
        { number := 7, file_size := 0, smallest := none, largest := none }
        2 3).written.head?).map (fun e => e.1) ∧
    (BuildTable natCmp
      { purge_redundant_kvs_while_flush := true, disableDataSync := false,
        use_fsync := false }
      Faults.clean
      { entries := [(⟨1, 5, 0⟩, 11), (⟨1, 3, 0⟩, 10), (⟨2, 4, 0⟩, 12)],
        status := none }
      { number := 7, file_size := 0, smallest := none, largest := none }
      2 3).meta.largest =
      ((BuildTable natCmp
        { purge_redundant_kvs_while_flush := true, disableDataSync := false,
          use_fsync := false }
        Faults.clean
        { entries := [(⟨1, 5, 0⟩, 11), (⟨1, 3, 0⟩, 10), (⟨2, 4, 0⟩, 12)],
          status := none }
        { number := 7, file_size := 0, smallest := none, largest := none }
        2 3).written.getLast?).map (fun e => e.1) :=
  C1_purge_keeps_newest_per_run rfl rfl (by decide) (by decide) rfl rfl
    (by decide)

theorem epilogue_failure (r : BuildResult) (h : (epilogue r).status ≠ none) :
    (epilogue r).fileExists = false ∧ (epilogue r).deleteCalled = true := by
  rw [epilogue_status] at h
  rw [epilogue_fileExists, epilogue_deleteCalled]
  simp [h]

theorem tailStages_failure (o : Options) (f : Faults) (iter : Iter) (sIn : Status)
    (bs : BState) (meta : FileMetaData) (violated : Bool)
    (h : (tailStages o f iter sIn bs meta violated).status ≠ none) :
    (tailStages o f iter sIn bs meta violated).fileExists = false ∧
    (tailStages o f iter sIn bs meta violated).deleteCalled = true := by
  revert h
  simp only [tailStages]
  exact fun h => epilogue_failure _ h

/-- **C4 (counterexample).** On a creation failure the driver returns early:
the result is a failure, yet the epilogue's cleanup action (`DeleteFile`)
is *not* executed — contradicting the claim that every failure executes the
cleanup action and that the cleanup is not skippable by an early return on
creation failure.  (No file exists, but only because none was created.) -/
theorem C4_create_failure_skips_cleanup_counterexample :
    (BuildTable natCmp
      { purge_redundant_kvs_while_flush := false, disableDataSync := false,
        use_fsync := false }
      { Faults.clean with createErr := some 1 }
      { entries := [(⟨1, 5, 0⟩, 11)], status := none }
      { number := 7, file_size := 0, smallest := none, largest := none }
      2 3).status ≠ none ∧
    (BuildTable natCmp
      { purge_redundant_kvs_while_flush := false, disableDataSync := false,
        use_fsync := false }
      { Faults.clean with createErr := some 1 }
      { entries := [(⟨1, 5, 0⟩, 11)], status := none }
      { number := 7, file_size := 0, smallest := none, largest := none }
      2 3).deleteCalled = false := by
  constructor
  · decide
  · decide

/-- **C4 (amended).** For every failure at any stage, no file is present on
disk afterwards and the result is non-success; the epilogue's cleanup
action (deleting the output file) is executed on every failure *except* a
creation failure, where the driver returns early without the cleanup action
(no file was created, so none can remain). -/
theorem C4_failure_leaves_no_file {ucmp : Nat → Nat → Int} {o : Options}
    {f : Faults} {iter : Iter} {metaIn : FileMetaData} {ns es : Nat}
    (hfail : (BuildTable ucmp o f iter metaIn ns es).status ≠ none) :
    (BuildTable ucmp o f iter metaIn ns es).fileExists = false ∧
    (f.createErr = none →
      (BuildTable ucmp o f iter metaIn ns es).deleteCalled = true) := by
  cases h : iter.entries with
  | nil =>
      rw [BuildTable_empty h] at hfail ⊢
      obtain ⟨h1, h2⟩ := epilogue_failure _ hfail
      exact ⟨h1, fun _ => h2⟩
  | cons first rest =>
      cases hcr : f.createErr with
      | some e =>
          rw [BuildTable_createFail h hcr]
          exact ⟨rfl, fun hcontra => absurd hcontra (by simp [hcr])⟩
      | none =>
          by_cases hp : (es ≤ ns) ∨ o.purge_redundant_kvs_while_flush = false
          · rw [BuildTable_cons_nonpurge h hcr hp] at hfail ⊢
            obtain ⟨h1, h2⟩ := tailStages_failure _ _ _ _ _ _ _ hfail
            exact ⟨h1, fun _ => h2⟩
          · push_neg at hp
            obtain ⟨hw, hpu⟩ := hp
            rw [BuildTable_cons_purge h hcr (by simpa using hpu) (by omega)]
              at hfail ⊢
            obtain ⟨h1, h2⟩ := tailStages_failure _ _ _ _ _ _ _ hfail
            exact ⟨h1, fun _ => h2⟩

/-- Witness for the amended C4: a close failure on a one-entry build leaves
no file and does run the cleanup action. -/
theorem C4_failure_leaves_no_file_witness :
    (BuildTable natCmp
      { purge_redundant_kvs_while_flush := false, disableDataSync := false,
        use_fsync := false }
      { Faults.clean with closeErr := some 5 }
      { entries := [(⟨1, 5, 0⟩, 11)], status := none }
      { number := 7, file_size := 0, smallest := none, largest := none }
      2 3).fileExists = false ∧
    (BuildTable natCmp
      { purge_redundant_kvs_while_flush := false, disableDataSync := false,
        use_fsync := false }
      { Faults.clean with closeErr := some 5 }
      { entries := [(⟨1, 5, 0⟩, 11)], status := none }
      { number := 7, file_size := 0, smallest := none, largest := none }
      2 3).deleteCalled = true := by
  obtain ⟨h1, h2⟩ := @C4_failure_leaves_no_file natCmp
    { purge_redundant_kvs_while_flush := false, disableDataSync := false,
      use_fsync := false }
    { Faults.clean with closeErr := some 5 }
    { entries := [(⟨1, 5, 0⟩, 11)], status := none }
    { number := 7, file_size := 0, smallest := none, largest := none }
    2 3 (by decide)
  exact ⟨h1, h2 rfl⟩

theorem tailStages_builder_error (o : Options) (f : Faults) (iter : Iter)
    (bs : BState) (meta : FileMetaData) (violated : Bool) (c : Nat)
    (hbs : bs.status = some c) (hit : iter.status = none) :
    tailStages o f iter none bs meta violated =
      { status := some c, meta := meta, fileExists := false,
        written := bs.entries, finishCalled := true, abandonCalled := false,
        fsyncCalled := false, syncCalled := false, closeCalled := false,
        verifyCalled := false, deleteCalled := true,
        assertViolated := violated } := by
  simp [tailStages, epilogue, hbs, hit]

theorem bAdd_fail0 {f : Faults} (ha : f.addFailAt = some 0) (e : Entry) :
    bAdd f BState.init e =
      { entries := [], addCount := 1, status := some 100 } := by
  simp [bAdd, BState.init, ha]

theorem purgeLoop_fail0 {ucmp : Nat → Nat → Int} {earliest : Nat} {f : Faults}
    (ha : f.addFailAt = some 0) :
    ∀ (l : List Entry) (prev : Entry) (v : Bool),
      (purgeLoop ucmp earliest f BState.init prev v l).1 = BState.init ∨
      (purgeLoop ucmp earliest f BState.init prev v l).1 =
        { entries := [], addCount := 1, status := some 100 } := by
  intro l
  induction l with
  | nil => intro prev v; left; rfl
  | cons e rest ih =>
      intro prev v
      rw [purgeLoop_cons]
      by_cases hk : ucmp prev.1.user_key e.1.user_key ≠ 0
      · rw [if_pos hk, bAdd_fail0 ha]
        right
        exact (purgeLoop_stuck rest _ e _ (by simp)).1
      · rw [if_neg hk]
        exact ih prev _

/-- **C5 (counterexample).** With a one-entry source whose buffered write
fails before finalize, the driver still calls `Finish` (which surfaces the
builder's error) rather than discarding via `Abandon`, and the descriptor is
*not* in its zero state: `smallest` has already been set from the first
key.  This refutes the claim's "discard instead of finalize" and
"descriptor unchanged from zero state". -/
theorem C5_writer_error_counterexample :
    (BuildTable natCmp
      { purge_redundant_kvs_while_flush := false, disableDataSync := false,
        use_fsync := false }
      { Faults.clean with addFailAt := some 0 }
      { entries := [(⟨1, 5, 0⟩, 11)], status := none }
      { number := 7, file_size := 0, smallest := none, largest := none }
      2 3).finishCalled = true ∧
    (BuildTable natCmp
      { purge_redundant_kvs_while_flush := false, disableDataSync := false,
        use_fsync := false }
      { Faults.clean with addFailAt := some 0 }
      { entries := [(⟨1, 5, 0⟩, 11)], status := none }
      { number := 7, file_size := 0, smallest := none, largest := none }
      2 3).abandonCalled = false ∧
    (BuildTable natCmp
      { purge_redundant_kvs_while_flush := false, disableDataSync := false,
        use_fsync := false }
      { Faults.clean with addFailAt := some 0 }
      { entries := [(⟨1, 5, 0⟩, 11)], status := none }
      { number := 7, file_size := 0, smallest := none, largest := none }
      2 3).meta.smallest = some ⟨1, 5, 0⟩ := by
  refine ⟨?_, ?_, ?_⟩ <;> decide

/-- **C5 (amended).** When the table writer's buffered write fails during
the pass (before finalize) on a non-empty source with a clean file
creation and a clean deferred source status, the driver nevertheless calls
finalize — which returns the writer's recorded error — not the discard
path; the call returns that failure, no file exists afterwards, the
cleanup deletion runs, `file_size` stays 0, but `smallest` has been set to
the first input key (the descriptor is not in its zero state). -/
theorem C5_writer_error_still_finalizes {ucmp : Nat → Nat → Int}
    {o : Options} {f : Faults} {iter : Iter} {metaIn : FileMetaData}
    {ns es : Nat} {first : Entry} {rest : List Entry}
    (h : iter.entries = first :: rest) (hc : f.createErr = none)
    (ha : f.addFailAt = some 0) (hit : iter.status = none) :
    (BuildTable ucmp o f iter metaIn ns es).status = some 100 ∧
    (BuildTable ucmp o f iter metaIn ns es).finishCalled = true ∧
    (BuildTable ucmp o f iter metaIn ns es).abandonCalled = false ∧
    (BuildTable ucmp o f iter metaIn ns es).fileExists = false ∧
    (BuildTable ucmp o f iter metaIn ns es).deleteCalled = true ∧
    (BuildTable ucmp o f iter metaIn ns es).meta.file_size = 0 ∧
    (BuildTable ucmp o f iter metaIn ns es).meta.smallest = some first.1 := by
  by_cases hp : (es ≤ ns) ∨ o.purge_redundant_kvs_while_flush = false
  · rw [BuildTable_cons_nonpurge h hc hp]
    have hbs : (nonPurgeLoop f BState.init
        { metaIn with file_size := 0, smallest := some first.1 }
        (first :: rest)).1 =
        { entries := [], addCount := 1, status := some 100 } := by
      rw [nonPurgeLoop_cons, bAdd_fail0 ha]
      exact nonPurgeLoop_stuck rest _ _ (by simp)
    have hsm : ∀ (l : List Entry) (bs : BState) (m : FileMetaData),
        (nonPurgeLoop f bs m l).2.smallest = m.smallest ∧
        (nonPurgeLoop f bs m l).2.file_size = m.file_size := by
      intro l
      induction l with
      | nil => intro bs m; exact ⟨rfl, rfl⟩
      | cons x xs ih => intro bs m; rw [nonPurgeLoop_cons]; exact ih _ _
    rw [tailStages_builder_error o f iter _ _ _ 100 (by rw [hbs]) hit]
    refine ⟨rfl, rfl, rfl, rfl, rfl, ?_, ?_⟩
    · exact (hsm (first :: rest) _ _).2
    · exact (hsm (first :: rest) _ _).1
  · push_neg at hp
    obtain ⟨hw, hpu⟩ := hp
    rw [BuildTable_cons_purge h hc (by simpa using hpu) (by omega)]
    have hbs : (bAdd f
        (purgeLoop ucmp es f BState.init first
          (decide (first.1.sequence < es)) rest).1
        (purgeLoop ucmp es f BState.init first
          (decide (first.1.sequence < es)) rest).2.1).status = some 100 := by
      rcases purgeLoop_fail0 ha rest first (decide (first.1.sequence < es))
        with h1 | h1
      · rw [h1, bAdd_fail0 ha]
      · rw [h1, bAdd_failed (by simp)]
    rw [tailStages_builder_error o f iter _ _ _ 100 hbs hit]
    exact ⟨rfl, rfl, rfl, rfl, rfl, rfl, rfl⟩

/-- Witness for the amended C5 (spec's Example 3 shape): one entry, the
buffered write fails; finalize is still called and returns the error. -/
theorem C5_writer_error_still_finalizes_witness :
    (BuildTable natCmp
      { purge_redundant_kvs_while_flush := true, disableDataSync := false,
        use_fsync := false }
      { Faults.clean with addFailAt := some 0 }
      { entries := [(⟨1, 5, 0⟩, 11)], status := none }
      { number := 7, file_size := 0, smallest := none, largest := none }
      2 3).status = some 100 ∧
    (BuildTable natCmp
      { purge_redundant_kvs_while_flush := true, disableDataSync := false,
        use_fsync := false }
      { Faults.clean with addFailAt := some 0 }
      { entries := [(⟨1, 5, 0⟩, 11)], status := none }
      { number := 7, file_size := 0, smallest := none, largest := none }
      2 3).finishCalled = true ∧
    (BuildTable natCmp
      { purge_redundant_kvs_while_flush := true, disableDataSync := false,
        use_fsync := false }
      { Faults.clean with addFailAt := some 0 }
      { entries := [(⟨1, 5, 0⟩, 11)], status := none }
      { number := 7, file_size := 0, smallest := none, largest := none }
      2 3).abandonCalled = false := by
  obtain ⟨h1, h2, h3, _⟩ := @C5_writer_error_still_finalizes natCmp
    { purge_redundant_kvs_while_flush := true, disableDataSync := false,
      use_fsync := false }
    { Faults.clean with addFailAt := some 0 }
    { entries := [(⟨1, 5, 0⟩, 11)], status := none }
    { number := 7, file_size := 0, smallest := none, largest := none }
    2 3 (⟨1, 5, 0⟩, 11) [] rfl rfl rfl rfl
  exact ⟨h1, h2, h3⟩

theorem tailStages_sync (o : Options) (f : Faults) (iter : Iter) (bs : BState)
    (meta : FileMetaData) (violated : Bool)
    (hbs : bs.status = none) (hfin : f.finishErr = none) :
    (o.disableDataSync = true →
      (tailStages o f iter none bs meta violated).fsyncCalled = false ∧
      (tailStages o f iter none bs meta violated).syncCalled = false ∧
      (tailStages o f iter none bs meta violated).closeCalled = true) ∧
    (o.disableDataSync = false → o.use_fsync = true →
      (tailStages o f iter none bs meta violated).fsyncCalled = true ∧
      (tailStages o f iter none bs meta violated).syncCalled = false ∧
      ((tailStages o f iter none bs meta violated).closeCalled = true ↔
        f.fsyncErr = none)) ∧
    (o.disableDataSync = false → o.use_fsync = false →
      (tailStages o f iter none bs meta violated).syncCalled = true ∧
      (tailStages o f iter none bs meta violated).fsyncCalled = false ∧
      ((tailStages o f iter none bs meta violated).closeCalled = true ↔
        f.syncErr = none)) ∧
    (o.disableDataSync = false →
      (if o.use_fsync then f.fsyncErr else f.syncErr) ≠ none →
      (tailStages o f iter none bs meta violated).status ≠ none) ∧
    ((o.disableDataSync = true ∨
        (if o.use_fsync then f.fsyncErr else f.syncErr) = none) →
      f.closeErr ≠ none →
      (tailStages o f iter none bs meta violated).status ≠ none) := by
  refine ⟨?_, ?_, ?_, ?_, ?_⟩
  · intro hd
    simp [tailStages, epilogue_fsyncCalled, epilogue_syncCalled,
      epilogue_closeCalled, hbs, hfin, hd]
  · intro hd hu
    cases hfs : f.fsyncErr <;>
      simp [tailStages, epilogue_fsyncCalled, epilogue_syncCalled,
        epilogue_closeCalled, hbs, hfin, hd, hu, hfs]
  · intro hd hu
    cases hsy : f.syncErr <;>
      simp [tailStages, epilogue_fsyncCalled, epilogue_syncCalled,
        epilogue_closeCalled, hbs, hfin, hd, hu, hsy]
  · intro hd hne
    cases hu : o.use_fsync with
    | true =>
        rw [hu] at hne
        cases hfs : f.fsyncErr with
        | none => rw [hfs] at hne; simp at hne
        | some c =>
            cases hit : iter.status <;>
              simp [tailStages, epilogue_status, hbs, hfin, hd, hu, hfs, hit]
    | false =>
        rw [hu] at hne
        cases hsy : f.syncErr with
        | none => rw [hsy] at hne; simp at hne
        | some c =>
            cases hit : iter.status <;>
              simp [tailStages, epilogue_status, hbs, hfin, hd, hu, hsy, hit]
  · intro hds hce
    cases hcl : f.closeErr with
    | none => exact absurd rfl (hcl ▸ hce)
    | some c =>
        by_cases hd : o.disableDataSync = true
        · cases hit : iter.status <;>
            simp [tailStages, epilogue_status, hbs, hfin, hd, hcl, hit]
        · have hd' : o.disableDataSync = false := by
            cases hdd : o.disableDataSync
            · rfl
            · exact absurd hdd hd
          rcases hds with hds | hds
          · exact absurd hds hd
          · cases hu : o.use_fsync with
            | true =>
                rw [hu] at hds
                simp at hds
                cases hit : iter.status <;>
                  simp [tailStages, epilogue_status, hbs, hfin, hd', hu, hds,
                    hcl, hit]
            | false =>
                rw [hu] at hds
                simp at hds
                cases hit : iter.status <;>
                  simp [tailStages, epilogue_status, hbs, hfin, hd', hu, hds,
                    hcl, hit]

/-- **C7.** For every non-empty build whose finalize succeeds: with
durability syncing disabled no sync call is made (and close still runs);
otherwise exactly one sync runs — `Fsync` under maximum durability,
else `Sync` — close is attempted only when that sync succeeded, and a
failure of the chosen sync or of close makes the overall result a failure
even though finalize succeeded. -/
theorem C7_durability_sequencing {ucmp : Nat → Nat → Int} {o : Options}
    {f : Faults} {iter : Iter} {metaIn : FileMetaData} {ns es : Nat}
    {first : Entry} {rest : List Entry}
    (h : iter.entries = first :: rest) (hc : f.createErr = none)
    (ha : f.addFailAt = none) (hfin : f.finishErr = none) :
    (o.disableDataSync = true →
      (BuildTable ucmp o f iter metaIn ns es).fsyncCalled = false ∧
      (BuildTable ucmp o f iter metaIn ns es).syncCalled = false ∧
      (BuildTable ucmp o f iter metaIn ns es).closeCalled = true) ∧
    (o.disableDataSync = false → o.use_fsync = true →
      (BuildTable ucmp o f iter metaIn ns es).fsyncCalled = true ∧
      (BuildTable ucmp o f iter metaIn ns es).syncCalled = false ∧
      ((BuildTable ucmp o f iter metaIn ns es).closeCalled = true ↔
        f.fsyncErr = none)) ∧
    (o.disableDataSync = false → o.use_fsync = false →
      (BuildTable ucmp o f iter metaIn ns es).syncCalled = true ∧
      (BuildTable ucmp o f iter metaIn ns es).fsyncCalled = false ∧
      ((BuildTable ucmp o f iter metaIn ns es).closeCalled = true ↔
        f.syncErr = none)) ∧
    (o.disableDataSync = false →
      (if o.use_fsync then f.fsyncErr else f.syncErr) ≠ none →
      (BuildTable ucmp o f iter metaIn ns es).status ≠ none) ∧
    ((o.disableDataSync = true ∨
        (if o.use_fsync then f.fsyncErr else f.syncErr) = none) →
      f.closeErr ≠ none →
      (BuildTable ucmp o f iter metaIn ns es).status ≠ none) := by
  by_cases hp : (es ≤ ns) ∨ o.purge_redundant_kvs_while_flush = false
  · rw [BuildTable_cons_nonpurge h hc hp]
    refine tailStages_sync o f iter _ _ _ ?_ hfin
    rw [nonPurgeLoop_clean ha (first :: rest) BState.init _ rfl]
    rfl
  · push_neg at hp
    obtain ⟨hw, hpu⟩ := hp
    rw [BuildTable_cons_purge h hc (by simpa using hpu) (by omega)]
    refine tailStages_sync o f iter _ _ _ ?_ hfin
    obtain ⟨hst, _⟩ := @purgeLoop_clean ucmp es f ha rest
      BState.init first (decide (first.1.sequence < es)) rfl
    rw [bAdd_clean ha hst]
    exact hst

/-- Witness for C7: lighter-sync configuration with all operations clean;
exactly the lighter sync runs and close follows it. -/
theorem C7_durability_sequencing_witness :
    (BuildTable natCmp
      { purge_redundant_kvs_while_flush := false, disableDataSync := false,
        use_fsync := false }
      Faults.clean
      { entries := [(⟨1, 5, 0⟩, 11)], status := none }
      { number := 7, file_size := 0, smallest := none, largest := none }
      2 3).syncCalled = true ∧
    (BuildTable natCmp
      { purge_redundant_kvs_while_flush := false, disableDataSync := false,
        use_fsync := false }
      Faults.clean
      { entries := [(⟨1, 5, 0⟩, 11)], status := none }
      { number := 7, file_size := 0, smallest := none, largest := none }
      2 3).fsyncCalled = false ∧
    (BuildTable natCmp
      { purge_redundant_kvs_while_flush := false, disableDataSync := false,
        use_fsync := false }
      Faults.clean
      { entries := [(⟨1, 5, 0⟩, 11)], status := none }
      { number := 7, file_size := 0, smallest := none, largest := none }
      2 3).closeCalled = true := by
  obtain ⟨_, _, p3, _, _⟩ := @C7_durability_sequencing natCmp
    { purge_redundant_kvs_while_flush := false, disableDataSync := false,
      use_fsync := false }
    Faults.clean
    { entries := [(⟨1, 5, 0⟩, 11)], status := none }
    { number := 7, file_size := 0, smallest := none, largest := none }
    2 3 (⟨1, 5, 0⟩, 11) [] rfl rfl rfl rfl
  obtain ⟨q1, q2, q3⟩ := p3 rfl rfl
  exact ⟨q1, q2, q3.mpr rfl⟩

/-- **C10.** If finalize succeeds but a later stage fails (sync, close,
verification, or the deferred source-error check), the table descriptor is
not reset: `file_size` keeps the positive finalized size and
`smallest`/`largest` keep the written keys, even though the call returns a
failure and the file is deleted — so `file_size == 0` cannot be used to
detect failure; the returned status must be consulted. -/
theorem C10_descriptor_not_reset {ucmp : Nat → Nat → Int} {o : Options}
    {f : Faults} {iter : Iter} {metaIn : FileMetaData} {ns es : Nat}
    {first : Entry} {rest : List Entry}
    (h : iter.entries = first :: rest) (hc : f.createErr = none)
    (ha : f.addFailAt = none) (hfin : f.finishErr = none)
    (hfail : (BuildTable ucmp o f iter metaIn ns es).status ≠ none) :
    0 < (BuildTable ucmp o f iter metaIn ns es).meta.file_size ∧
    (BuildTable ucmp o f iter metaIn ns es).meta.smallest ≠ none ∧
    (BuildTable ucmp o f iter metaIn ns es).meta.largest ≠ none ∧
    (BuildTable ucmp o f iter metaIn ns es).fileExists = false := by
  by_cases hp : (es ≤ ns) ∨ o.purge_redundant_kvs_while_flush = false
  · rw [BuildTable_cons_nonpurge h hc hp] at hfail ⊢
    have hbs : (nonPurgeLoop f BState.init
        { metaIn with file_size := 0, smallest := some first.1 }
        (first :: rest)).1.status = none := by
      rw [nonPurgeLoop_clean ha (first :: rest) BState.init _ rfl]
      rfl
    refine ⟨?_, ?_, ?_, (tailStages_failure _ _ _ _ _ _ _ hfail).1⟩
    · rw [tailStages_meta, if_pos ⟨hbs, hfin⟩]
      simp [fileSize]
    · rw [tailStages_smallest,
        nonPurgeLoop_clean ha (first :: rest) BState.init _ rfl]
      simp
    · rw [tailStages_largest,
        nonPurgeLoop_clean ha (first :: rest) BState.init _ rfl]
      cases hxl : (first :: rest).getLast? with
      | none => simp at hxl
      | some y => simp [hxl]
  · push_neg at hp
    obtain ⟨hw, hpu⟩ := hp
    rw [BuildTable_cons_purge h hc (by simpa using hpu) (by omega)]
      at hfail ⊢
    obtain ⟨hst, _⟩ := @purgeLoop_clean ucmp es f ha rest
      BState.init first (decide (first.1.sequence < es)) rfl
    have hbs : (bAdd f
        (purgeLoop ucmp es f BState.init first
          (decide (first.1.sequence < es)) rest).1
        (purgeLoop ucmp es f BState.init first
          (decide (first.1.sequence < es)) rest).2.1).status = none := by
      rw [bAdd_clean ha hst]
      exact hst
    refine ⟨?_, ?_, ?_, (tailStages_failure _ _ _ _ _ _ _ hfail).1⟩
    · rw [tailStages_meta, if_pos ⟨hbs, hfin⟩]
      simp [fileSize]
    · rw [tailStages_smallest]
      simp
    · rw [tailStages_largest]
      simp

/-- Witness for C10: a close failure after a successful finalize; the
descriptor keeps the positive size and both keys while the call fails. -/
theorem C10_descriptor_not_reset_witness :
    0 < (BuildTable natCmp
      { purge_redundant_kvs_while_flush := false, disableDataSync := false,
        use_fsync := false }
      { Faults.clean with closeErr := some 5 }
      { entries := [(⟨1, 5, 0⟩, 11)], status := none }
      { number := 7, file_size := 0, smallest := none, largest := none }
      2 3).meta.file_size ∧
    (BuildTable natCmp
      { purge_redundant_kvs_while_flush := false, disableDataSync := false,
        use_fsync := false }
      { Faults.clean with closeErr := some 5 }
      { entries := [(⟨1, 5, 0⟩, 11)], status := none }
      { number := 7, file_size := 0, smallest := none, largest := none }
      2 3).meta.smallest ≠ none ∧
    (BuildTable natCmp
      { purge_redundant_kvs_while_flush := false, disableDataSync := false,
        use_fsync := false }
      { Faults.clean with closeErr := some 5 }
      { entries := [(⟨1, 5, 0⟩, 11)], status := none }
      { number := 7, file_size := 0, smallest := none, largest := none }
      2 3).meta.largest ≠ none ∧
    (BuildTable natCmp
      { purge_redundant_kvs_while_flush := false, disableDataSync := false,
        use_fsync := false }
      { Faults.clean with closeErr := some 5 }
      { entries := [(⟨1, 5, 0⟩, 11)], status := none }
      { number := 7, file_size := 0, smallest := none, largest := none }
      2 3).fileExists = false :=
  @C10_descriptor_not_reset natCmp
    { purge_redundant_kvs_while_flush := false, disableDataSync := false,
      use_fsync := false }
    { Faults.clean with closeErr := some 5 }
    { entries := [(⟨1, 5, 0⟩, 11)], status := none }
    { number := 7, file_size := 0, smallest := none, largest := none }
    2 3 (⟨1, 5, 0⟩, 11) [] rfl rfl rfl rfl (by decide)

theorem tailStages_status_congr (o : Options) (f : Faults)
    (iter1 iter2 : Iter) (hst : iter1.status = iter2.status) (sIn : Status)
    (bs : BState) (meta : FileMetaData) (v1 v2 : Bool) :
    (tailStages o f iter1 sIn bs meta v1).status =
      (tailStages o f iter2 sIn bs meta v2).status := by
  simp only [tailStages, epilogue_status, hst]

theorem tailStages_violated_true (o : Options) (f : Faults) (iter : Iter)
    (bs : BState) (meta : FileMetaData) :
    (tailStages o f iter none bs meta true).assertViolated = true := by
  simp only [tailStages, epilogue_assertViolated]
  split_ifs <;> simp

/-- **C9.** In purge mode, when two consecutive entries' user keys compare
equal under the configured comparator but the later entry's sequence
number is *not* strictly less than the pending entry's, the driver records
an assertion/invariant fault (`assertViolated`) rather than a reported
error status, and the later entry is otherwise discarded with the pending
entry unchanged: the status, the written output and the descriptor are
exactly those of the same build with the offending entry removed. -/
theorem C9_duplicate_key_seq_invariant {ucmp : Nat → Nat → Int}
    {o : Options} {f : Faults} {iter : Iter} {metaIn : FileMetaData}
    {ns es : Nat} {e1 e2 : Entry} {rest : List Entry}
    (h : iter.entries = e1 :: e2 :: rest)
    (hk : ucmp e1.1.user_key e2.1.user_key = 0)
    (hs : ¬ e2.1.sequence < e1.1.sequence)
    (hp : o.purge_redundant_kvs_while_flush = true)
    (hw : ¬ es ≤ ns)
    (hc : f.createErr = none) :
    (BuildTable ucmp o f iter metaIn ns es).assertViolated = true ∧
    (BuildTable ucmp o f iter metaIn ns es).status =
      (BuildTable ucmp o f { iter with entries := e1 :: rest }
        metaIn ns es).status ∧
    (BuildTable ucmp o f iter metaIn ns es).written =
      (BuildTable ucmp o f { iter with entries := e1 :: rest }
        metaIn ns es).written ∧
    (BuildTable ucmp o f iter metaIn ns es).meta =
      (BuildTable ucmp o f { iter with entries := e1 :: rest }
        metaIn ns es).meta := by
  have hkk : ¬ ucmp e1.1.user_key e2.1.user_key ≠ 0 := by simp [hk]
  have hd2 : decide (¬ e2.1.sequence < e1.1.sequence) = true := by
    simp [hs]
  have hra : purgeLoop ucmp es f BState.init e1
      (decide (e1.1.sequence < es)) (e2 :: rest) =
      purgeLoop ucmp es f BState.init e1 true rest := by
    rw [purgeLoop_cons, if_neg hkk, hd2]
    simp
  have hA1 : (purgeLoop ucmp es f BState.init e1 true rest).1 =
      (purgeLoop ucmp es f BState.init e1 false rest).1 := by
    rw [purgeLoop_violated rest BState.init e1 true]
  have hB1 : (purgeLoop ucmp es f BState.init e1
      (decide (e1.1.sequence < es)) rest).1 =
      (purgeLoop ucmp es f BState.init e1 false rest).1 := by
    rw [purgeLoop_violated rest BState.init e1 (decide (e1.1.sequence < es))]
  have hA2 : (purgeLoop ucmp es f BState.init e1 true rest).2.1 =
      (purgeLoop ucmp es f BState.init e1 false rest).2.1 := by
    rw [purgeLoop_violated rest BState.init e1 true]
  have hB2 : (purgeLoop ucmp es f BState.init e1
      (decide (e1.1.sequence < es)) rest).2.1 =
      (purgeLoop ucmp es f BState.init e1 false rest).2.1 := by
    rw [purgeLoop_violated rest BState.init e1 (decide (e1.1.sequence < es))]
  have hA3 : (purgeLoop ucmp es f BState.init e1 true rest).2.2 = true := by
    rw [purgeLoop_violated rest BState.init e1 true]
    simp
  rw [BuildTable_cons_purge h hc hp hw,
    BuildTable_cons_purge
      (show ({ iter with entries := e1 :: rest } : Iter).entries =
        e1 :: rest from rfl) hc hp hw,
    hra, hA1, hB1, hA2, hB2, hA3]
  refine ⟨tailStages_violated_true o f iter _ _, ?_, ?_, ?_⟩
  · exact tailStages_status_congr o f iter _ rfl none _ _ _ _
  · rw [tailStages_written, tailStages_written]
  · rw [tailStages_meta, tailStages_meta]

/-- Witness for C9: two entries with equal user key and equal sequence
numbers (violating the strictly-descending invariant); the fault is
flagged while status, output and descriptor match the build without the
offending entry. -/
theorem C9_duplicate_key_seq_invariant_witness :
    (BuildTable natCmp
      { purge_redundant_kvs_while_flush := true, disableDataSync := false,
        use_fsync := false }
      Faults.clean
      { entries := [(⟨1, 5, 0⟩, 11), (⟨1, 5, 0⟩, 10)], status := none }
      { number := 7, file_size := 0, smallest := none, largest := none }
      2 3).assertViolated = true ∧
    (BuildTable natCmp
      { purge_redundant_kvs_while_flush := true, disableDataSync := false,
        use_fsync := false }
      Faults.clean
      { entries := [(⟨1, 5, 0⟩, 11), (⟨1, 5, 0⟩, 10)], status := none }
      { number := 7, file_size := 0, smallest := none, largest := none }
      2 3).status =
      (BuildTable natCmp
        { purge_redundant_kvs_while_flush := true, disableDataSync := false,
          use_fsync := false }
        Faults.clean
        { entries := [(⟨1, 5, 0⟩, 11)], status := none }
        { number := 7, file_size := 0, smallest := none, largest := none }
        2 3).status ∧
    (BuildTable natCmp
      { purge_redundant_kvs_while_flush := true, disableDataSync := false,
        use_fsync := false }
      Faults.clean
      { entries := [(⟨1, 5, 0⟩, 11), (⟨1, 5, 0⟩, 10)], status := none }
      { number := 7, file_size := 0, smallest := none, largest := none }
      2 3).written =
      (BuildTable natCmp
        { purge_redundant_kvs_while_flush := true, disableDataSync := false,
          use_fsync := false }
        Faults.clean
        { entries := [(⟨1, 5, 0⟩, 11)], status := none }
        { number := 7, file_size := 0, smallest := none, largest := none }
        2 3).written ∧
    (BuildTable natCmp
      { purge_redundant_kvs_while_flush := true, disableDataSync := false,
        use_fsync := false }
      Faults.clean
      { entries := [(⟨1, 5, 0⟩, 11), (⟨1, 5, 0⟩, 10)], status := none }
      { number := 7, file_size := 0, smallest := none, largest := none }
      2 3).meta =
      (BuildTable natCmp
        { purge_redundant_kvs_while_flush := true, disableDataSync := false,
          use_fsync := false }
        Faults.clean
        { entries := [(⟨1, 5, 0⟩, 11)], status := none }
        { number := 7, file_size := 0, smallest := none, largest := none }
        2 3).meta :=
  @C9_duplicate_key_seq_invariant natCmp
    { purge_redundant_kvs_while_flush := true, disableDataSync := false,
      use_fsync := false }
    Faults.clean
    { entries := [(⟨1, 5, 0⟩, 11), (⟨1, 5, 0⟩, 10)], status := none }
    { number := 7, file_size := 0, smallest := none, largest := none }
    2 3 (⟨1, 5, 0⟩, 11) (⟨1, 5, 0⟩, 10) [] rfl (by decide) (by decide)
    rfl (by decide) rfl

end leveldb
